import Mathlib

/-!
Shallow embedding of the `azurerm_mssql_job_credential` resource
(`resourceMsSqlJobCredentialCreate` / `Read` / `Update` / `Delete`).

External collaborators (the generated REST client, the identifier parsers,
the write-only value store and the schema engine) are modelled as oracles:
the remote client as a store with per-call fault injection, the parsers as
function parameters, and the write-only retrieval as a recorded outcome on
the resource data.  The control flow of the four CRUD entry points is
translated statement by statement from the Go source.
-/

namespace MsSqlJobCredential

/-- Parent identifier of a job agent (subscription, resource group, server,
job agent), as produced by `jobcredentials.ParseJobAgentID`. -/
structure JobAgentId where
  subscriptionId : String
  resourceGroupName : String
  serverName : String
  jobAgentName : String
deriving DecidableEq, Repr

/-- Identifier of a job credential, as produced by
`jobcredentials.NewCredentialID` / `ParseCredentialID`. -/
structure CredentialId where
  subscriptionId : String
  resourceGroupName : String
  serverName : String
  jobAgentName : String
  credentialName : String
deriving DecidableEq, Repr

/-- `jobcredentials.NewCredentialID`. -/
def NewCredentialID (subscriptionId resourceGroupName serverName jobAgentName credentialName : String) : CredentialId :=
  ⟨subscriptionId, resourceGroupName, serverName, jobAgentName, credentialName⟩

/-- `jobcredentials.NewJobAgentID`. -/
def NewJobAgentID (subscriptionId resourceGroupName serverName jobAgentName : String) : JobAgentId :=
  ⟨subscriptionId, resourceGroupName, serverName, jobAgentName⟩

/-- The slash-delimited rendering `JobAgentId.ID()`. -/
def JobAgentId.ID (i : JobAgentId) : String :=
  "/subscriptions/" ++ i.subscriptionId ++ "/resourceGroups/" ++ i.resourceGroupName ++
    "/providers/Microsoft.Sql/servers/" ++ i.serverName ++ "/jobAgents/" ++ i.jobAgentName

/-- The slash-delimited rendering `CredentialId.ID()`. -/
def CredentialId.ID (i : CredentialId) : String :=
  "/subscriptions/" ++ i.subscriptionId ++ "/resourceGroups/" ++ i.resourceGroupName ++
    "/providers/Microsoft.Sql/servers/" ++ i.serverName ++ "/jobAgents/" ++ i.jobAgentName ++
    "/credentials/" ++ i.credentialName

/-- `jobcredentials.JobCredentialProperties`. -/
structure JobCredentialProperties where
  username : String
  password : String
deriving DecidableEq, Repr

/-- `jobcredentials.JobCredential` (pointer fields become `Option`). -/
structure JobCredential where
  name : Option String
  properties : Option JobCredentialProperties
deriving DecidableEq, Repr

/-- Errors returned by the resource functions, one constructor per
`fmt.Errorf` / returned error site in the Go source. -/
inductive ResourceError where
  | parseError (msg : String)
  | checkingForPresence (id : String) (msg : String)
  | importAsExists (resourceName : String) (id : String)
  | writeOnlyError (msg : String)
  | creating (id : String) (msg : String)
  | retrieving (id : String) (msg : String)
  | modelWasNil (id : String)
  | propertiesWasNil (id : String)
  | updating (id : String) (msg : String)
  | reading (id : String) (msg : String)
  | deleting (id : String) (msg : String)
deriving DecidableEq, Repr

/-- Outcome of `client.Get`: the error (`nil` or not), the
`response.WasNotFound(resp.HttpResponse)` flag, and `resp.Model`. -/
structure SdkGetResponse where
  err : Option String
  wasNotFound : Bool
  model : Option JobCredential
deriving DecidableEq, Repr

/-- Injectable behaviour for one `Get` call: either a non-nil error with a
chosen not-found flag and model, or a nil error with a chosen (possibly
malformed) model. -/
inductive GetFault where
  | errResp (msg : String) (notFound : Bool) (model : Option JobCredential)
  | okResp (model : Option JobCredential)
deriving DecidableEq, Repr

/-- Association-list lookup in the remote store. -/
def lookupStore (store : List (CredentialId × JobCredential)) (i : CredentialId) : Option JobCredential :=
  (store.find? (fun p => decide (p.1 = i))).map Prod.snd

/-- Overwrite-or-insert in the remote store (upsert semantics of
`CreateOrUpdate`). -/
def upsertStore (store : List (CredentialId × JobCredential)) (i : CredentialId) (m : JobCredential) : List (CredentialId × JobCredential) :=
  (i, m) :: store.filter (fun p => !(decide (p.1 = i)))

/-- The remote side: the stored objects plus scripts of injected faults,
consumed one per call of the matching kind; an exhausted (or `none`) entry
means the call behaves honestly against the store. -/
structure Remote where
  store : List (CredentialId × JobCredential)
  getFaults : List (Option GetFault)
  couFaults : List (Option String)
  delFaults : List (Option String)
deriving Repr

/-- Honest `Get` against the store: present objects are returned with a nil
error, absent ones yield a non-nil error flagged as not-found (HTTP 404). -/
def faithfulGet (store : List (CredentialId × JobCredential)) (i : CredentialId) : SdkGetResponse :=
  match lookupStore store i with
  | some m => ⟨none, false, some m⟩
  | none => ⟨some "404", true, none⟩

/-- `client.Get(ctx, id)`. -/
def Remote.doGet (r : Remote) (i : CredentialId) : Remote × SdkGetResponse :=
  match r.getFaults with
  | [] => (r, faithfulGet r.store i)
  | f :: rest =>
    let r1 := { r with getFaults := rest }
    match f with
    | none => (r1, faithfulGet r.store i)
    | some (.errResp msg nf mo) => (r1, ⟨some msg, nf, mo⟩)
    | some (.okResp mo) => (r1, ⟨none, false, mo⟩)

/-- `client.CreateOrUpdate(ctx, id, payload)`. -/
def Remote.doCreateOrUpdate (r : Remote) (i : CredentialId) (payload : JobCredential) : Remote × Option String :=
  match r.couFaults with
  | [] => ({ r with store := upsertStore r.store i payload }, none)
  | f :: rest =>
    let r1 := { r with couFaults := rest }
    match f with
    | none => ({ r1 with store := upsertStore r.store i payload }, none)
    | some msg => (r1, some msg)

/-- `client.Delete(ctx, id)`; honestly deleting an absent object reports a
not-found failure. -/
def Remote.doDelete (r : Remote) (i : CredentialId) : Remote × Option String :=
  match r.delFaults with
  | [] =>
    match lookupStore r.store i with
    | some _ => ({ r with store := r.store.filter (fun p => !(decide (p.1 = i))) }, none)
    | none => (r, some "404")
  | f :: rest =>
    let r1 := { r with delFaults := rest }
    match f with
    | none =>
      match lookupStore r.store i with
      | some _ => ({ r1 with store := r.store.filter (fun p => !(decide (p.1 = i))) }, none)
      | none => (r1, some "404")
    | some msg => (r1, some msg)

/-- The `*pluginsdk.ResourceData` view the resource functions use: the
stored id, the configuration fields, the change-detection flags, and the
recorded outcome of `pluginsdk.GetWriteOnly(d, "password_wo", cty.String)`
(`none` inside `ok` models a null cty value). -/
structure ResourceData where
  id : String
  name : String
  job_agent_id : String
  username : String
  password : String
  password_wo_version : Int
  hasChangeUsername : Bool
  hasChangePassword : Bool
  hasChangePasswordWoVersion : Bool
  password_wo : Except String (Option String)
deriving Repr

/-- Observable calls made by one resource-function invocation. -/
inductive Event where
  | get (id : CredentialId)
  | createOrUpdate (id : CredentialId) (payload : JobCredential)
  | delete (id : CredentialId)
  | getWriteOnly (field : String)
  | setId (s : String)
deriving DecidableEq, Repr

/-- Result of one resource-function invocation: the returned error (if
any), the resulting local state, the resulting remote state, and the trace
of calls made. -/
structure OpResult where
  result : Except ResourceError Unit
  d : ResourceData
  remote : Remote
  events : List Event

/-- The payload passwords of the `CreateOrUpdate` calls in a trace, in
order. -/
def couSentPasswords (evs : List Event) : List (Option String) :=
  evs.filterMap (fun e => match e with
    | .createOrUpdate _ p => some (p.properties.map JobCredentialProperties.password)
    | _ => none)

/-- The `CreateOrUpdate` calls in a trace, in order. -/
def couCalls (evs : List Event) : List (CredentialId × JobCredential) :=
  evs.filterMap (fun e => match e with
    | .createOrUpdate i p => some (i, p)
    | _ => none)

/-- Whether an event is a consultation of the write-only value store. -/
def isWoRead : Event → Bool
  | .getWriteOnly _ => true
  | _ => false

/-- `resourceMsSqlJobCredentialRead`. -/
def resourceMsSqlJobCredentialRead (parseCredentialID : String → Except String CredentialId)
    (d : ResourceData) (r : Remote) : OpResult :=
  match parseCredentialID d.id with
  | .error e => ⟨.error (.parseError e), d, r, []⟩
  | .ok id =>
    let gr := r.doGet id
    let r1 := gr.1
    let resp := gr.2
    let evs := [Event.get id]
    match resp.err with
    | some e =>
      if resp.wasNotFound then
        ⟨.ok (), { d with id := "" }, r1, evs ++ [Event.setId ""]⟩
      else
        ⟨.error (.reading id.ID e), d, r1, evs⟩
    | none =>
      let d1 := { d with
        name := id.credentialName,
        job_agent_id := (NewJobAgentID id.subscriptionId id.resourceGroupName id.serverName id.jobAgentName).ID }
      let d2 := match resp.model with
        | some m =>
          match m.properties with
          | some props => { d1 with username := props.username }
          | none => d1
        | none => d1
      let d3 := { d2 with password_wo_version := d.password_wo_version }
      ⟨.ok (), d3, r1, evs⟩

/-- `resourceMsSqlJobCredentialCreate`. -/
def resourceMsSqlJobCredentialCreate (parseJobAgentID : String → Except String JobAgentId)
    (parseCredentialID : String → Except String CredentialId)
    (d : ResourceData) (r : Remote) : OpResult :=
  match parseJobAgentID d.job_agent_id with
  | .error e => ⟨.error (.parseError e), d, r, []⟩
  | .ok jaId =>
    let jobCredentialId := NewCredentialID jaId.subscriptionId jaId.resourceGroupName jaId.serverName jaId.jobAgentName d.name
    let gr := r.doGet jobCredentialId
    let r1 := gr.1
    let existing := gr.2
    let evs := [Event.get jobCredentialId]
    if existing.err.isSome && !existing.wasNotFound then
      ⟨.error (.checkingForPresence jobCredentialId.ID (existing.err.getD "")), d, r1, evs⟩
    else if !existing.wasNotFound then
      ⟨.error (.importAsExists "azurerm_mssql_job_credential" jobCredentialId.ID), d, r1, evs⟩
    else
      let evs1 := evs ++ [Event.getWriteOnly "password_wo"]
      match d.password_wo with
      | .error e => ⟨.error (.writeOnlyError e), d, r1, evs1⟩
      | .ok woPassword =>
        let password := match woPassword with
          | some v => v
          | none => d.password
        let jobCredential : JobCredential :=
          { name := some jobCredentialId.credentialName,
            properties := some { username := d.username, password := password } }
        let cr := r1.doCreateOrUpdate jobCredentialId jobCredential
        let r2 := cr.1
        let evs2 := evs1 ++ [Event.createOrUpdate jobCredentialId jobCredential]
        match cr.2 with
        | some e => ⟨.error (.creating jobCredentialId.ID e), d, r2, evs2⟩
        | none =>
          let d1 := { d with id := jobCredentialId.ID }
          let evs3 := evs2 ++ [Event.setId jobCredentialId.ID]
          let res := resourceMsSqlJobCredentialRead parseCredentialID d1 r2
          ⟨res.result, res.d, res.remote, evs3 ++ res.events⟩

/-- `resourceMsSqlJobCredentialUpdate`. -/
def resourceMsSqlJobCredentialUpdate (parseJobAgentID : String → Except String JobAgentId)
    (parseCredentialID : String → Except String CredentialId)
    (d : ResourceData) (r : Remote) : OpResult :=
  match parseJobAgentID d.job_agent_id with
  | .error e => ⟨.error (.parseError e), d, r, []⟩
  | .ok jaId =>
    let jobCredentialId := NewCredentialID jaId.subscriptionId jaId.resourceGroupName jaId.serverName jaId.jobAgentName d.name
    let gr := r.doGet jobCredentialId
    let r1 := gr.1
    let existing := gr.2
    let evs := [Event.get jobCredentialId]
    match existing.err with
    | some e => ⟨.error (.retrieving jobCredentialId.ID e), d, r1, evs⟩
    | none =>
      match existing.model with
      | none => ⟨.error (.modelWasNil jobCredentialId.ID), d, r1, evs⟩
      | some model =>
        match model.properties with
        | none => ⟨.error (.propertiesWasNil jobCredentialId.ID), d, r1, evs⟩
        | some props0 =>
          let props1 := if d.hasChangeUsername then { props0 with username := d.username } else props0
          let props2 := if d.hasChangePassword then { props1 with password := d.password } else props1
          let finish := fun (props : JobCredentialProperties) (evsAcc : List Event) =>
            let payload := { model with properties := some props }
            let cr := r1.doCreateOrUpdate jobCredentialId payload
            let r2 := cr.1
            let evs2 := evsAcc ++ [Event.createOrUpdate jobCredentialId payload]
            match cr.2 with
            | some e => (⟨.error (.updating jobCredentialId.ID e), d, r2, evs2⟩ : OpResult)
            | none =>
              let res := resourceMsSqlJobCredentialRead parseCredentialID d r2
              ⟨res.result, res.d, res.remote, evs2 ++ res.events⟩
          if d.hasChangePasswordWoVersion then
            let evs1 := evs ++ [Event.getWriteOnly "password_wo"]
            match d.password_wo with
            | .error e => ⟨.error (.writeOnlyError e), d, r1, evs1⟩
            | .ok woPassword =>
              match woPassword with
              | some v => finish { props2 with password := v } evs1
              | none => finish props2 evs1
          else finish props2 evs

/-- `resourceMsSqlJobCredentialDelete`. -/
def resourceMsSqlJobCredentialDelete (parseCredentialID : String → Except String CredentialId)
    (d : ResourceData) (r : Remote) : OpResult :=
  match parseCredentialID d.id with
  | .error e => ⟨.error (.parseError e), d, r, []⟩
  | .ok id =>
    let dr := r.doDelete id
    let evs := [Event.delete id]
    match dr.2 with
    | some e => ⟨.error (.deleting id.ID e), d, dr.1, evs⟩
    | none => ⟨.ok (), d, dr.1, evs⟩

/-! Concrete fixtures used by the witnesses. -/

def sampleJaId : JobAgentId := ⟨"sub", "rg", "srv", "agent"⟩

def sampleCid : CredentialId := ⟨"sub", "rg", "srv", "agent", "cred"⟩

def sampleParseJA : String → Except String JobAgentId :=
  fun s => if s = sampleJaId.ID then Except.ok sampleJaId else Except.error "parse ja"

def sampleParseC : String → Except String CredentialId :=
  fun s => if s = sampleCid.ID then Except.ok sampleCid else Except.error "parse cred"

def sampleData : ResourceData :=
  { id := sampleCid.ID, name := "cred", job_agent_id := sampleJaId.ID, username := "u1",
    password := "pw1", password_wo_version := 1, hasChangeUsername := false,
    hasChangePassword := false, hasChangePasswordWoVersion := false,
    password_wo := Except.ok none }

def sampleModel : JobCredential :=
  { name := some "cred", properties := some { username := "u0", password := "pw0" } }

def sampleRemote : Remote := ⟨[(sampleCid, sampleModel)], [], [], []⟩

def emptyRemote : Remote := ⟨[], [], [], []⟩

/-! Helper lemmas about the remote client and about `Read`. -/

theorem doGet_store (r : Remote) (i : CredentialId) : (r.doGet i).1.store = r.store := by
  rcases r with ⟨store, gF, cF, dF⟩
  rcases gF with _ | ⟨f, rest⟩
  · rfl
  · rcases f with _ | gf
    · rfl
    · cases gf <;> rfl

theorem doGet_of_no_faults (r : Remote) (i : CredentialId) (h : r.getFaults = []) :
    r.doGet i = (r, faithfulGet r.store i) := by
  unfold Remote.doGet
  rw [h]

theorem doCreateOrUpdate_of_no_faults (r : Remote) (i : CredentialId) (p : JobCredential)
    (h : r.couFaults = []) :
    r.doCreateOrUpdate i p = ({ r with store := upsertStore r.store i p }, none) := by
  unfold Remote.doCreateOrUpdate
  rw [h]

theorem lookupStore_upsert (store : List (CredentialId × JobCredential)) (i : CredentialId)
    (m : JobCredential) : lookupStore (upsertStore store i m) i = some m := by
  simp [lookupStore, upsertStore, List.find?]

theorem read_store (pC : String → Except String CredentialId) (d : ResourceData) (r : Remote) :
    (resourceMsSqlJobCredentialRead pC d r).remote.store = r.store := by
  unfold resourceMsSqlJobCredentialRead
  rcases hp : pC d.id with e | cid
  · simp only [hp]
  · simp only [hp]
    rcases hg : r.doGet cid with ⟨r1, ⟨err, nf, mo⟩⟩
    have h1 := doGet_store r cid
    rw [hg] at h1
    simp only [hg]
    rcases err with _ | msg
    · rcases mo with _ | ⟨mn, mp⟩
      · simpa using h1
      · rcases mp with _ | props <;> simpa using h1
    · cases nf <;> simpa using h1

theorem read_no_cou (pC : String → Except String CredentialId) (d : ResourceData) (r : Remote) :
    couCalls (resourceMsSqlJobCredentialRead pC d r).events = [] := by
  unfold resourceMsSqlJobCredentialRead
  rcases hp : pC d.id with e | cid
  · simp only [hp]
    rfl
  · simp only [hp]
    rcases hg : r.doGet cid with ⟨r1, ⟨err, nf, mo⟩⟩
    simp only [hg]
    rcases err with _ | msg
    · rcases mo with _ | ⟨mn, mp⟩
      · rfl
      · rcases mp with _ | props <;> rfl
    · cases nf <;> rfl

theorem read_no_cou_passwords (pC : String → Except String CredentialId) (d : ResourceData)
    (r : Remote) :
    couSentPasswords (resourceMsSqlJobCredentialRead pC d r).events = [] := by
  unfold resourceMsSqlJobCredentialRead
  rcases hp : pC d.id with e | cid
  · simp only [hp]
    rfl
  · simp only [hp]
    rcases hg : r.doGet cid with ⟨r1, ⟨err, nf, mo⟩⟩
    simp only [hg]
    rcases err with _ | msg
    · rcases mo with _ | ⟨mn, mp⟩
      · rfl
      · rcases mp with _ | props <;> rfl
    · cases nf <;> rfl

theorem read_no_wo (pC : String → Except String CredentialId) (d : ResourceData) (r : Remote) :
    (resourceMsSqlJobCredentialRead pC d r).events.filter isWoRead = [] := by
  unfold resourceMsSqlJobCredentialRead
  rcases hp : pC d.id with e | cid
  · simp only [hp]
    rfl
  · simp only [hp]
    rcases hg : r.doGet cid with ⟨r1, ⟨err, nf, mo⟩⟩
    simp only [hg]
    rcases err with _ | msg
    · rcases mo with _ | ⟨mn, mp⟩
      · rfl
      · rcases mp with _ | props <;> rfl
    · cases nf <;> rfl

theorem read_password_frame (pC : String → Except String CredentialId) (d : ResourceData)
    (r : Remote) :
    (resourceMsSqlJobCredentialRead pC d r).d.password = d.password ∧
      (resourceMsSqlJobCredentialRead pC d r).d.password_wo = d.password_wo := by
  unfold resourceMsSqlJobCredentialRead
  rcases hp : pC d.id with e | cid
  · simp [hp]
  · simp only [hp]
    rcases hg : r.doGet cid with ⟨r1, ⟨err, nf, mo⟩⟩
    simp only [hg]
    rcases err with _ | msg
    · rcases mo with _ | ⟨mn, mp⟩
      · exact ⟨rfl, rfl⟩
      · rcases mp with _ | props <;> exact ⟨rfl, rfl⟩
    · cases nf <;> exact ⟨rfl, rfl⟩

theorem read_result_ok_of_no_faults (pC : String → Except String CredentialId) (d : ResourceData)
    (r : Remote) (cid : CredentialId) (hp : pC d.id = Except.ok cid) (hg : r.getFaults = []) :
    (resourceMsSqlJobCredentialRead pC d r).result = Except.ok () := by
  unfold resourceMsSqlJobCredentialRead
  simp only [hp, doGet_of_no_faults r cid hg]
  unfold faithfulGet
  rcases hl : lookupStore r.store cid with _ | ⟨mn, mp⟩
  · simp [hl]
  · simp only [hl]

/-- Claim C9: for each of Create, Read, Update and Delete, a failure of the
identifier parse (of the parent job-agent id for Create and Update, of the
stored credential id for Read and Delete) is returned as the operation
result before any remote client call: local state, remote state and the
call trace are all unchanged. -/
theorem parse_failure_aborts_before_remote_call
    (pJA : String → Except String JobAgentId) (pC : String → Except String CredentialId)
    (d : ResourceData) (r : Remote) (e : String) :
    (pJA d.job_agent_id = Except.error e →
      resourceMsSqlJobCredentialCreate pJA pC d r = ⟨Except.error (.parseError e), d, r, []⟩ ∧
      resourceMsSqlJobCredentialUpdate pJA pC d r = ⟨Except.error (.parseError e), d, r, []⟩) ∧
    (pC d.id = Except.error e →
      resourceMsSqlJobCredentialRead pC d r = ⟨Except.error (.parseError e), d, r, []⟩ ∧
      resourceMsSqlJobCredentialDelete pC d r = ⟨Except.error (.parseError e), d, r, []⟩) := by
  constructor
  · intro h
    constructor
    · unfold resourceMsSqlJobCredentialCreate
      simp only [h]
    · unfold resourceMsSqlJobCredentialUpdate
      simp only [h]
  · intro h
    constructor
    · unfold resourceMsSqlJobCredentialRead
      simp only [h]
    · unfold resourceMsSqlJobCredentialDelete
      simp only [h]

/-- Witness for C9 at a concrete failing parser. -/
theorem parse_failure_aborts_before_remote_call_witness :
    resourceMsSqlJobCredentialCreate (fun _ => Except.error "bad") sampleParseC sampleData
        emptyRemote = ⟨Except.error (.parseError "bad"), sampleData, emptyRemote, []⟩ ∧
    resourceMsSqlJobCredentialRead (fun _ => Except.error "bad") sampleData emptyRemote =
      ⟨Except.error (.parseError "bad"), sampleData, emptyRemote, []⟩ :=
  ⟨((parse_failure_aborts_before_remote_call (fun _ => Except.error "bad") sampleParseC
      sampleData emptyRemote "bad").1 rfl).1,
   ((parse_failure_aborts_before_remote_call sampleParseJA (fun _ => Except.error "bad")
      sampleData emptyRemote "bad").2 rfl).1⟩

/-- Claim C5: when the fetch reports the object as not found, Read clears
the stored id, makes no other local change, leaves the store alone and
returns no error; any other fetch failure is returned as a reading
error. -/
theorem read_not_found_clears_local_state
    (pC : String → Except String CredentialId) (d : ResourceData) (r r1 : Remote)
    (cid : CredentialId) (nf : Bool) (mo : Option JobCredential) (msg : String)
    (hp : pC d.id = Except.ok cid)
    (hg : r.doGet cid = (r1, ⟨some msg, nf, mo⟩)) :
    (nf = true →
      resourceMsSqlJobCredentialRead pC d r =
        ⟨Except.ok (), { d with id := "" }, r1, [Event.get cid, Event.setId ""]⟩) ∧
    (nf = false →
      resourceMsSqlJobCredentialRead pC d r =
        ⟨Except.error (.reading cid.ID msg), d, r1, [Event.get cid]⟩) := by
  unfold resourceMsSqlJobCredentialRead
  simp only [hp, hg]
  constructor
  · intro h
    simp [h]
  · intro h
    simp [h]

/-- Witness for C5: reading an honestly absent object clears the id. -/
theorem read_not_found_clears_local_state_witness :
    resourceMsSqlJobCredentialRead sampleParseC sampleData emptyRemote =
      ⟨Except.ok (), { sampleData with id := "" }, emptyRemote,
        [Event.get sampleCid, Event.setId ""]⟩ :=
  (read_not_found_clears_local_state sampleParseC sampleData emptyRemote emptyRemote sampleCid
    true none "404" rfl rfl).1 rfl

/-- Claim C6: every failure reported by the remote delete call is surfaced
as a deleting error, Delete succeeds exactly when the remote delete call
reports no failure, and honestly deleting an already absent object is
fatal rather than silently idempotent. -/
theorem delete_surfaces_all_failures
    (pC : String → Except String CredentialId) (d : ResourceData) (r : Remote)
    (cid : CredentialId) (hp : pC d.id = Except.ok cid) :
    (∀ msg, (r.doDelete cid).2 = some msg →
      resourceMsSqlJobCredentialDelete pC d r =
        ⟨Except.error (.deleting cid.ID msg), d, (r.doDelete cid).1, [Event.delete cid]⟩) ∧
    ((resourceMsSqlJobCredentialDelete pC d r).result = Except.ok () ↔
      (r.doDelete cid).2 = none) ∧
    (r.delFaults = [] → lookupStore r.store cid = none →
      (resourceMsSqlJobCredentialDelete pC d r).result =
        Except.error (.deleting cid.ID "404")) := by
  unfold resourceMsSqlJobCredentialDelete
  simp only [hp]
  rcases hd : r.doDelete cid with ⟨r1, de⟩
  simp only [hd]
  refine ⟨?_, ?_, ?_⟩
  · intro msg hm
    rcases de with _ | msg2
    · cases hm
    · cases hm
      rfl
  · rcases de with _ | msg2 <;> simp
  · intro hdf hl
    have : r.doDelete cid = (r, some "404") := by
      unfold Remote.doDelete
      rw [hdf, hl]
    rw [this] at hd
    cases hd
    rfl

/-- Witness for C6: deleting an absent object fails. -/
theorem delete_surfaces_all_failures_witness :
    resourceMsSqlJobCredentialDelete sampleParseC sampleData emptyRemote =
      ⟨Except.error (.deleting sampleCid.ID "404"), sampleData, emptyRemote,
        [Event.delete sampleCid]⟩ :=
  (delete_surfaces_all_failures sampleParseC sampleData emptyRemote sampleCid rfl).1 "404" rfl

/-- Claim C4: if the pre-update fetch fails for any reason, or returns a
nil model or nil properties, Update fails with the corresponding fatal
error and the remote CreateOrUpdate call is never invoked. -/
theorem update_fetch_failure_is_fatal
    (pJA : String → Except String JobAgentId) (pC : String → Except String CredentialId)
    (d : ResourceData) (r r1 : Remote) (jaId : JobAgentId) (cid : CredentialId)
    (err : Option String) (nf : Bool) (mo : Option JobCredential)
    (hp : pJA d.job_agent_id = Except.ok jaId)
    (hcid : NewCredentialID jaId.subscriptionId jaId.resourceGroupName jaId.serverName
      jaId.jobAgentName d.name = cid)
    (hg : r.doGet cid = (r1, ⟨err, nf, mo⟩)) :
    (∀ msg, err = some msg →
      resourceMsSqlJobCredentialUpdate pJA pC d r =
        ⟨Except.error (.retrieving cid.ID msg), d, r1, [Event.get cid]⟩) ∧
    (err = none → mo = none →
      resourceMsSqlJobCredentialUpdate pJA pC d r =
        ⟨Except.error (.modelWasNil cid.ID), d, r1, [Event.get cid]⟩) ∧
    (∀ m, err = none → mo = some m → m.properties = none →
      resourceMsSqlJobCredentialUpdate pJA pC d r =
        ⟨Except.error (.propertiesWasNil cid.ID), d, r1, [Event.get cid]⟩) := by
  unfold resourceMsSqlJobCredentialUpdate
  simp only [hp, hcid, hg]
  refine ⟨?_, ?_, ?_⟩
  · intro msg hm
    simp [hm]
  · intro he hmo
    simp [he, hmo]
  · intro m he hmo hprops
    simp [he, hmo, hprops]

/-- Witness for C4: a fetch failure makes Update fatal with no write. -/
theorem update_fetch_failure_is_fatal_witness :
    resourceMsSqlJobCredentialUpdate sampleParseJA sampleParseC sampleData
        ⟨[], [some (.errResp "boom" false none)], [], []⟩ =
      ⟨Except.error (.retrieving sampleCid.ID "boom"), sampleData, emptyRemote,
        [Event.get sampleCid]⟩ :=
  (update_fetch_failure_is_fatal sampleParseJA sampleParseC sampleData
    ⟨[], [some (.errResp "boom" false none)], [], []⟩ emptyRemote sampleJaId sampleCid
    (some "boom") false none rfl rfl rfl).1 "boom" rfl

theorem couCalls_append (a b : List Event) : couCalls (a ++ b) = couCalls a ++ couCalls b := by
  simp [couCalls]

theorem couSentPasswords_append (a b : List Event) :
    couSentPasswords (a ++ b) = couSentPasswords a ++ couSentPasswords b := by
  simp [couSentPasswords]

theorem doGet_nil (store : List (CredentialId × JobCredential)) (cF dF : List (Option String))
    (i : CredentialId) :
    Remote.doGet ⟨store, [], cF, dF⟩ i = (⟨store, [], cF, dF⟩, faithfulGet store i) := rfl

theorem doCou_nil (store : List (CredentialId × JobCredential)) (gF : List (Option GetFault))
    (dF : List (Option String)) (i : CredentialId) (p : JobCredential) :
    Remote.doCreateOrUpdate ⟨store, gF, [], dF⟩ i p =
      (⟨upsertStore store i p, gF, [], dF⟩, none) := rfl

theorem update_no_wo_read (pJA : String → Except String JobAgentId)
    (pC : String → Except String CredentialId) (d : ResourceData) (r : Remote)
    (h : d.hasChangePasswordWoVersion = false) :
    (resourceMsSqlJobCredentialUpdate pJA pC d r).events.filter isWoRead = [] := by
  unfold resourceMsSqlJobCredentialUpdate
  rcases hp : pJA d.job_agent_id with e | jaId
  · simp only [hp]
    rfl
  · simp only [hp]
    rcases hg : r.doGet (NewCredentialID jaId.subscriptionId jaId.resourceGroupName
        jaId.serverName jaId.jobAgentName d.name) with ⟨r1, ⟨err, nf, mo⟩⟩
    simp only [hg]
    rcases err with _ | msg
    · rcases mo with _ | ⟨mn, mp⟩
      · rfl
      · rcases mp with _ | props
        · rfl
        · simp only [h, Bool.false_eq_true, if_false]
          split
          · rfl
          · simp [List.filter_append, read_no_wo, isWoRead]
    · rfl

/-- Claim C1: on Update, when the version marker is flagged as changed and
the write-only password is present, the payload of the single
CreateOrUpdate call carries the write-only value as the credential
password (no condition relates it to the prior-applied value); when the
version marker is not flagged as changed, the write-only store is never
consulted. -/
theorem update_wo_version_change_replaces_password
    (pJA : String → Except String JobAgentId) (pC : String → Except String CredentialId)
    (d : ResourceData) (r r1 : Remote) (jaId : JobAgentId) (cid : CredentialId) (nf : Bool)
    (m : JobCredential) (props : JobCredentialProperties) (v : String) :
    (pJA d.job_agent_id = Except.ok jaId →
      NewCredentialID jaId.subscriptionId jaId.resourceGroupName jaId.serverName
        jaId.jobAgentName d.name = cid →
      r.doGet cid = (r1, ⟨none, nf, some m⟩) →
      m.properties = some props →
      d.hasChangePasswordWoVersion = true →
      d.password_wo = Except.ok (some v) →
      couSentPasswords (resourceMsSqlJobCredentialUpdate pJA pC d r).events = [some v]) ∧
    (d.hasChangePasswordWoVersion = false →
      (resourceMsSqlJobCredentialUpdate pJA pC d r).events.filter isWoRead = []) := by
  constructor
  · intro hp hcid hg hpr hv hwo
    unfold resourceMsSqlJobCredentialUpdate
    simp only [hp, hcid, hg, hpr, hv, if_true, hwo]
    split
    · rfl
    · rw [couSentPasswords_append, read_no_cou_passwords, List.append_nil]
      rfl
  · exact update_no_wo_read pJA pC d r

/-- Witness for C1: a version-marker change with a present write-only value
sends exactly that password once. -/
theorem update_wo_version_change_replaces_password_witness :
    couSentPasswords (resourceMsSqlJobCredentialUpdate sampleParseJA sampleParseC
        { sampleData with hasChangePasswordWoVersion := true,
                          password_wo := Except.ok (some "wopw") }
        sampleRemote).events = [some "wopw"] :=
  (update_wo_version_change_replaces_password sampleParseJA sampleParseC
    { sampleData with hasChangePasswordWoVersion := true,
                      password_wo := Except.ok (some "wopw") }
    sampleRemote sampleRemote sampleJaId sampleCid false sampleModel
    { username := "u0", password := "pw0" } "wopw").1 rfl rfl rfl rfl rfl rfl

/-- Claim C2: an Update with only the username flagged as changed leaves
the password stored at the remote object unchanged. -/
theorem update_username_only_preserves_remote_password
    (pJA : String → Except String JobAgentId) (pC : String → Except String CredentialId)
    (d : ResourceData) (store : List (CredentialId × JobCredential))
    (dF : List (Option String)) (jaId : JobAgentId) (cid : CredentialId)
    (m : JobCredential) (props : JobCredentialProperties)
    (hp : pJA d.job_agent_id = Except.ok jaId)
    (hcid : NewCredentialID jaId.subscriptionId jaId.resourceGroupName jaId.serverName
      jaId.jobAgentName d.name = cid)
    (hl : lookupStore store cid = some m)
    (hpr : m.properties = some props)
    (hU : d.hasChangeUsername = true)
    (hP : d.hasChangePassword = false)
    (hW : d.hasChangePasswordWoVersion = false) :
    ∃ c, lookupStore (resourceMsSqlJobCredentialUpdate pJA pC d
        ⟨store, [], [], dF⟩).remote.store cid = some c ∧
      c.properties.map JobCredentialProperties.password = some props.password := by
  unfold resourceMsSqlJobCredentialUpdate
  simp only [hp, hcid, doGet_nil]
  unfold faithfulGet
  simp only [hl, hpr, hU, hP, hW, Bool.false_eq_true, if_true, if_false, doCou_nil]
  rw [read_store]
  exact ⟨_, lookupStore_upsert _ _ _, rfl⟩

/-- Witness for C2: updating only the username keeps the stored password
pw0. -/
theorem update_username_only_preserves_remote_password_witness :
    ∃ c, lookupStore (resourceMsSqlJobCredentialUpdate sampleParseJA sampleParseC
        { sampleData with username := "u2", hasChangeUsername := true }
        ⟨[(sampleCid, sampleModel)], [], [], []⟩).remote.store sampleCid = some c ∧
      c.properties.map JobCredentialProperties.password = some "pw0" :=
  update_username_only_preserves_remote_password sampleParseJA sampleParseC
    { sampleData with username := "u2", hasChangeUsername := true }
    [(sampleCid, sampleModel)] [] sampleJaId sampleCid sampleModel
    { username := "u0", password := "pw0" } rfl rfl rfl rfl rfl rfl rfl

/-- Claim C3: when the existence lookup does not report not-found, Create
fails (with the import-as-exists conflict when the lookup succeeded, with
a fatal presence-check error on any other lookup failure) and the
CreateOrUpdate call is never made; a not-found outcome is not an error and
Create proceeds to exactly one CreateOrUpdate call. -/
theorem create_conflict_no_write
    (pJA : String → Except String JobAgentId) (pC : String → Except String CredentialId)
    (d : ResourceData) (r r1 : Remote) (jaId : JobAgentId) (cid : CredentialId)
    (err : Option String) (nf : Bool) (mo : Option JobCredential)
    (hp : pJA d.job_agent_id = Except.ok jaId)
    (hcid : NewCredentialID jaId.subscriptionId jaId.resourceGroupName jaId.serverName
      jaId.jobAgentName d.name = cid)
    (hg : r.doGet cid = (r1, ⟨err, nf, mo⟩)) :
    (nf = false → err = none →
      resourceMsSqlJobCredentialCreate pJA pC d r =
        ⟨Except.error (.importAsExists "azurerm_mssql_job_credential" cid.ID), d, r1,
          [Event.get cid]⟩) ∧
    (∀ msg, nf = false → err = some msg →
      resourceMsSqlJobCredentialCreate pJA pC d r =
        ⟨Except.error (.checkingForPresence cid.ID msg), d, r1, [Event.get cid]⟩) ∧
    (∀ wo, nf = true → d.password_wo = Except.ok wo →
      ∃ p, couCalls (resourceMsSqlJobCredentialCreate pJA pC d r).events = [(cid, p)]) := by
  unfold resourceMsSqlJobCredentialCreate
  simp only [hp, hcid, hg]
  refine ⟨?_, ?_, ?_⟩
  · intro hnf he
    simp [hnf, he]
  · intro msg hnf he
    simp [hnf, he]
  · intro wo hnf hwo
    simp only [hnf, hwo, Bool.not_true, Bool.and_false, Bool.false_eq_true, if_false]
    split
    · exact ⟨_, rfl⟩
    · rw [couCalls_append, read_no_cou, List.append_nil]
      exact ⟨_, rfl⟩

/-- Witness for C3: creating over an existing remote object fails with the
import-as-exists conflict and performs no write. -/
theorem create_conflict_no_write_witness :
    resourceMsSqlJobCredentialCreate sampleParseJA sampleParseC sampleData sampleRemote =
      ⟨Except.error (.importAsExists "azurerm_mssql_job_credential" sampleCid.ID), sampleData,
        sampleRemote, [Event.get sampleCid]⟩ :=
  (create_conflict_no_write sampleParseJA sampleParseC sampleData sampleRemote sampleRemote
    sampleJaId sampleCid none false (some sampleModel) rfl rfl rfl).1 rfl rfl

/-- The password resolution of Create (lines choosing the write-only value
when non-null, the plain field otherwise). -/
def effectivePassword (plain : String) (wo : Option String) : String :=
  match wo with
  | some v => v
  | none => plain

/-- The payload Create builds for the CreateOrUpdate call. -/
def createPayload (cid : CredentialId) (username password : String) : JobCredential :=
  { name := some cid.credentialName,
    properties := some { username := username, password := password } }

theorem read_found (pC : String → Except String CredentialId) (d : ResourceData) (r : Remote)
    (cid : CredentialId) (m : JobCredential) (props : JobCredentialProperties)
    (hp : pC d.id = Except.ok cid) (hgf : r.getFaults = [])
    (hl : lookupStore r.store cid = some m) (hpr : m.properties = some props) :
    resourceMsSqlJobCredentialRead pC d r =
      ⟨Except.ok (),
        { d with
          name := cid.credentialName,
          job_agent_id := (NewJobAgentID cid.subscriptionId cid.resourceGroupName
            cid.serverName cid.jobAgentName).ID,
          username := props.username },
        r, [Event.get cid]⟩ := by
  unfold resourceMsSqlJobCredentialRead
  simp only [hp, doGet_of_no_faults r cid hgf]
  unfold faithfulGet
  simp only [hl, hpr]

theorem create_success_of_absent (pJA : String → Except String JobAgentId)
    (pC : String → Except String CredentialId) (d : ResourceData)
    (store : List (CredentialId × JobCredential)) (dF : List (Option String))
    (jaId : JobAgentId) (cid : CredentialId) (wo : Option String)
    (hp : pJA d.job_agent_id = Except.ok jaId)
    (hcid : NewCredentialID jaId.subscriptionId jaId.resourceGroupName jaId.serverName
      jaId.jobAgentName d.name = cid)
    (habs : lookupStore store cid = none)
    (hwo : d.password_wo = Except.ok wo) :
    resourceMsSqlJobCredentialCreate pJA pC d ⟨store, [], [], dF⟩ =
      ⟨(resourceMsSqlJobCredentialRead pC { d with id := cid.ID }
          ⟨upsertStore store cid (createPayload cid d.username
            (effectivePassword d.password wo)), [], [], dF⟩).result,
       (resourceMsSqlJobCredentialRead pC { d with id := cid.ID }
          ⟨upsertStore store cid (createPayload cid d.username
            (effectivePassword d.password wo)), [], [], dF⟩).d,
       (resourceMsSqlJobCredentialRead pC { d with id := cid.ID }
          ⟨upsertStore store cid (createPayload cid d.username
            (effectivePassword d.password wo)), [], [], dF⟩).remote,
       [Event.get cid, Event.getWriteOnly "password_wo",
         Event.createOrUpdate cid (createPayload cid d.username
           (effectivePassword d.password wo)),
         Event.setId cid.ID] ++
         (resourceMsSqlJobCredentialRead pC { d with id := cid.ID }
           ⟨upsertStore store cid (createPayload cid d.username
             (effectivePassword d.password wo)), [], [], dF⟩).events⟩ := by
  unfold resourceMsSqlJobCredentialCreate
  simp only [hp, hcid, doGet_nil]
  unfold faithfulGet
  simp only [habs, hwo, createPayload, effectivePassword, doCou_nil]
  cases wo <;> rfl

/-- Claim C7: a successful Create over an honestly absent object, which
concludes by re-running Read, leaves the local username equal to the
username supplied at Create time and leaves the local password fields
untouched; moreover Read never writes the password or the write-only
channel for any input. -/
theorem create_then_read_projects_username_never_password
    (pJA : String → Except String JobAgentId) (pC : String → Except String CredentialId)
    (d : ResourceData) (store : List (CredentialId × JobCredential))
    (dF : List (Option String)) (jaId : JobAgentId) (cid : CredentialId) (wo : Option String)
    (hp : pJA d.job_agent_id = Except.ok jaId)
    (hcid : NewCredentialID jaId.subscriptionId jaId.resourceGroupName jaId.serverName
      jaId.jobAgentName d.name = cid)
    (habs : lookupStore store cid = none)
    (hwo : d.password_wo = Except.ok wo)
    (hpc : pC cid.ID = Except.ok cid) :
    (resourceMsSqlJobCredentialCreate pJA pC d ⟨store, [], [], dF⟩).result = Except.ok () ∧
    (resourceMsSqlJobCredentialCreate pJA pC d ⟨store, [], [], dF⟩).d.username = d.username ∧
    (resourceMsSqlJobCredentialCreate pJA pC d ⟨store, [], [], dF⟩).d.password = d.password ∧
    (∀ (pC2 : String → Except String CredentialId) (d2 : ResourceData) (r2 : Remote),
      (resourceMsSqlJobCredentialRead pC2 d2 r2).d.password = d2.password ∧
        (resourceMsSqlJobCredentialRead pC2 d2 r2).d.password_wo = d2.password_wo) := by
  have hc := create_success_of_absent pJA pC d store dF jaId cid wo hp hcid habs hwo
  have hread := read_found pC { d with id := cid.ID }
    ⟨upsertStore store cid (createPayload cid d.username (effectivePassword d.password wo)),
      [], [], dF⟩ cid
    (createPayload cid d.username (effectivePassword d.password wo))
    { username := d.username, password := effectivePassword d.password wo }
    hpc rfl (lookupStore_upsert _ _ _) rfl
  rw [hc, hread]
  exact ⟨rfl, rfl, rfl, fun pC2 d2 r2 => read_password_frame pC2 d2 r2⟩

/-- Witness for C7: a concrete Create then Read round trip. -/
theorem create_then_read_projects_username_never_password_witness :
    (resourceMsSqlJobCredentialCreate sampleParseJA sampleParseC
        { sampleData with id := "" } ⟨[], [], [], []⟩).result = Except.ok () ∧
    (resourceMsSqlJobCredentialCreate sampleParseJA sampleParseC
        { sampleData with id := "" } ⟨[], [], [], []⟩).d.username = "u1" ∧
    (resourceMsSqlJobCredentialCreate sampleParseJA sampleParseC
        { sampleData with id := "" } ⟨[], [], [], []⟩).d.password = "pw1" :=
  have h := create_then_read_projects_username_never_password sampleParseJA sampleParseC
    { sampleData with id := "" } [] [] sampleJaId sampleCid none rfl rfl rfl rfl rfl
  ⟨h.1, h.2.1, h.2.2.1⟩

/-- Claim C8: when the existence lookup reports not-found, the payload
Create sends carries the plain password when the write-only channel is
null and the write-only value when it is populated, as the single
CreateOrUpdate call; on CreateOrUpdate success the constructed identifier
is stored as the id and Read is re-run on the resulting state. -/
theorem create_password_channel_and_persisted_handle
    (pJA : String → Except String JobAgentId) (pC : String → Except String CredentialId)
    (d : ResourceData) (r r1 : Remote) (jaId : JobAgentId) (cid : CredentialId)
    (err : Option String) (mo : Option JobCredential) (wo : Option String)
    (hp : pJA d.job_agent_id = Except.ok jaId)
    (hcid : NewCredentialID jaId.subscriptionId jaId.resourceGroupName jaId.serverName
      jaId.jobAgentName d.name = cid)
    (hg : r.doGet cid = (r1, ⟨err, true, mo⟩))
    (hwo : d.password_wo = Except.ok wo) :
    couCalls (resourceMsSqlJobCredentialCreate pJA pC d r).events =
      [(cid, createPayload cid d.username (effectivePassword d.password wo))] ∧
    ((r1.doCreateOrUpdate cid (createPayload cid d.username
        (effectivePassword d.password wo))).2 = none →
      resourceMsSqlJobCredentialCreate pJA pC d r =
        ⟨(resourceMsSqlJobCredentialRead pC { d with id := cid.ID }
            (r1.doCreateOrUpdate cid (createPayload cid d.username
              (effectivePassword d.password wo))).1).result,
         (resourceMsSqlJobCredentialRead pC { d with id := cid.ID }
            (r1.doCreateOrUpdate cid (createPayload cid d.username
              (effectivePassword d.password wo))).1).d,
         (resourceMsSqlJobCredentialRead pC { d with id := cid.ID }
            (r1.doCreateOrUpdate cid (createPayload cid d.username
              (effectivePassword d.password wo))).1).remote,
         [Event.get cid, Event.getWriteOnly "password_wo",
           Event.createOrUpdate cid (createPayload cid d.username
             (effectivePassword d.password wo)),
           Event.setId cid.ID] ++
           (resourceMsSqlJobCredentialRead pC { d with id := cid.ID }
             (r1.doCreateOrUpdate cid (createPayload cid d.username
               (effectivePassword d.password wo))).1).events⟩) := by
  unfold resourceMsSqlJobCredentialCreate
  rcases wo with _ | v
  · simp only [hp, hcid, hg, hwo, createPayload, effectivePassword, Bool.not_true,
      Bool.and_false, Bool.false_eq_true, if_false]
    constructor
    · split
      · rfl
      · rw [couCalls_append, read_no_cou, List.append_nil]
        rfl
    · intro hcou
      simp only [hcou]
      rfl
  · simp only [hp, hcid, hg, hwo, createPayload, effectivePassword, Bool.not_true,
      Bool.and_false, Bool.false_eq_true, if_false]
    constructor
    · split
      · rfl
      · rw [couCalls_append, read_no_cou, List.append_nil]
        rfl
    · intro hcou
      simp only [hcou]
      rfl

/-- Witness for C8: with a null write-only channel the plain password is
sent and the id is persisted. -/
theorem create_password_channel_and_persisted_handle_witness :
    couCalls (resourceMsSqlJobCredentialCreate sampleParseJA sampleParseC
        { sampleData with id := "" } emptyRemote).events =
      [(sampleCid, createPayload sampleCid "u1" (effectivePassword "pw1" none))] :=
  (create_password_channel_and_persisted_handle sampleParseJA sampleParseC
    { sampleData with id := "" } emptyRemote emptyRemote sampleJaId sampleCid
    (some "404") none none rfl rfl rfl rfl).1

/-- Local data for the C10 counterexample: both the plain password and the
version marker are flagged as changed while the write-only value is null
(the channel-switch scenario). -/
def cexData : ResourceData :=
  { sampleData with
    password := "newplain",
    hasChangePassword := true,
    hasChangePasswordWoVersion := true,
    password_wo := Except.ok none }

/-- Remote for the C10 counterexample: the stored credential holds the
password oldremote. -/
def cexRemote : Remote :=
  ⟨[(sampleCid, { name := some "cred",
                  properties := some { username := "u0", password := "oldremote" } })],
    [], [], []⟩

/-- Counterexample to C10 as stated: with password_wo_version flagged as
changed and a null write-only value, but the plain password also flagged
as changed, the payload carries the new plain password, not the password
the pre-update fetch returned. -/
theorem update_wo_null_counterexample :
    (lookupStore cexRemote.store sampleCid).map
        (fun c => c.properties.map JobCredentialProperties.password) = some (some "oldremote") ∧
    cexData.hasChangePasswordWoVersion = true ∧
    cexData.password_wo = Except.ok none ∧
    couSentPasswords (resourceMsSqlJobCredentialUpdate sampleParseJA sampleParseC cexData
      cexRemote).events = [some "newplain"] ∧
    couSentPasswords (resourceMsSqlJobCredentialUpdate sampleParseJA sampleParseC cexData
      cexRemote).events ≠ [some "oldremote"] := by
  refine ⟨rfl, rfl, rfl, rfl, ?_⟩
  decide

/-- Claim C10 as amended: on Update, when password_wo_version is flagged
as changed but the retrieved write-only value is null, and the plain
password field is not flagged as changed, Update succeeds and the payload
sent to CreateOrUpdate carries the password value the pre-update remote
fetch returned. -/
theorem update_wo_null_keeps_fetched_password
    (pJA : String → Except String JobAgentId) (pC : String → Except String CredentialId)
    (d : ResourceData) (store : List (CredentialId × JobCredential))
    (dF : List (Option String)) (jaId : JobAgentId) (cid rid : CredentialId)
    (m : JobCredential) (props : JobCredentialProperties)
    (hp : pJA d.job_agent_id = Except.ok jaId)
    (hcid : NewCredentialID jaId.subscriptionId jaId.resourceGroupName jaId.serverName
      jaId.jobAgentName d.name = cid)
    (hl : lookupStore store cid = some m)
    (hpr : m.properties = some props)
    (hv : d.hasChangePasswordWoVersion = true)
    (hwo : d.password_wo = Except.ok none)
    (hP : d.hasChangePassword = false)
    (hrd : pC d.id = Except.ok rid) :
    (resourceMsSqlJobCredentialUpdate pJA pC d ⟨store, [], [], dF⟩).result = Except.ok () ∧
    couSentPasswords (resourceMsSqlJobCredentialUpdate pJA pC d
      ⟨store, [], [], dF⟩).events = [some props.password] := by
  unfold resourceMsSqlJobCredentialUpdate
  simp only [hp, hcid, doGet_nil]
  unfold faithfulGet
  simp only [hl, hpr, hv, hwo, hP, if_true, Bool.false_eq_true, if_false, doCou_nil]
  constructor
  · exact read_result_ok_of_no_faults pC d _ rid hrd rfl
  · rw [couSentPasswords_append, read_no_cou_passwords, List.append_nil]
    cases hU : d.hasChangeUsername <;> simp [hU, couSentPasswords]

/-- Witness for the amended C10 at concrete inputs. -/
theorem update_wo_null_keeps_fetched_password_witness :
    (resourceMsSqlJobCredentialUpdate sampleParseJA sampleParseC
        { sampleData with hasChangePasswordWoVersion := true }
        ⟨[(sampleCid, sampleModel)], [], [], []⟩).result = Except.ok () ∧
    couSentPasswords (resourceMsSqlJobCredentialUpdate sampleParseJA sampleParseC
        { sampleData with hasChangePasswordWoVersion := true }
        ⟨[(sampleCid, sampleModel)], [], [], []⟩).events = [some "pw0"] :=
  update_wo_null_keeps_fetched_password sampleParseJA sampleParseC
    { sampleData with hasChangePasswordWoVersion := true }
    [(sampleCid, sampleModel)] [] sampleJaId sampleCid sampleCid sampleModel
    { username := "u0", password := "pw0" } rfl rfl rfl rfl rfl rfl rfl rfl

end MsSqlJobCredential
